import Mathlib

/-!
Verification of the bootstrap of the nghttpx reverse proxy (src/shrpx.cc).

The file shallowly embeds the bootstrap: the configuration record and its
compiled-in defaults (`fill_default_config`), the configuration merge
pipeline, the address resolver (`resolve_hostname`), the dual-stack
listener builder (`create_evlistener`), privilege drop
(`drop_privileges`), PID persistence (`save_pid`), the rate-limit
descriptor builder (`get_rate_limit`), TLS context/lookup-tree setup, and
the sequencing of `event_loop` and `main`.

System calls (getuid, setgid, setuid, daemon, getaddrinfo, getnameinfo,
socket, setsockopt, bind, stat, file writes) are modelled by an explicit
oracle record `Sys` holding each call's outcome; the embedded functions
are deterministic in that oracle. Ordering properties are stated over an
event trace that the embedded control flow emits.
-/

/-- Linux value of AF_UNSPEC. -/
def AF_UNSPEC : Nat := 0

/-- Linux value of AF_INET. -/
def AF_INET : Nat := 2

/-- Linux value of AF_INET6. -/
def AF_INET6 : Nat := 10

/-- Linux value of SOCK_STREAM. -/
def SOCK_STREAM : Nat := 1

/-- Downstream protocol selector (shrpx.cc uses PROTO_HTTP / PROTO_SPDY). -/
inductive Proto where
  | http
  | spdy
deriving DecidableEq

/-- The fields of the configuration store (shrpx_config's Config) that the
bootstrap code under verification reads.  Timeout, logging and window-size
fields of the original struct are not read by any verified path and are
omitted.  C char* fields that may be null are Option String; C bool and
integer fields are Bool and Nat. -/
structure Config where
  host : String
  port : Nat
  private_key_file : Option String
  cert_file : Option String
  backlog : Nat
  downstream_host : String
  downstream_port : Nat
  num_worker : Nat
  conf_path : String
  http2_proxy : Bool
  http2_bridge : Bool
  client_proxy : Bool
  client : Bool
  client_mode : Bool
  pid_file : Option String
  uid : Nat
  gid : Nat
  backend_ipv4 : Bool
  backend_ipv6 : Bool
  daemon : Bool
  upstream_no_tls : Bool
  downstream_no_tls : Bool
  subcerts : List (String × String)
  downstream_http_proxy_host : Option String
  downstream_http_proxy_port : Nat
  read_rate : Nat
  read_burst : Nat
  write_rate : Nat
  write_burst : Nat
  downstream_proto : Proto

/-- fill_default_config (shrpx.cc lines 332-424), restricted to the fields
modelled in `Config`: the compiled-in defaults. -/
def fill_default_config : Config :=
  { host := "0.0.0.0"
    port := 3000
    private_key_file := none
    cert_file := none
    backlog := 256
    downstream_host := "127.0.0.1"
    downstream_port := 80
    num_worker := 1
    conf_path := "/etc/nghttpx/nghttpx.conf"
    http2_proxy := false
    http2_bridge := false
    client_proxy := false
    client := false
    client_mode := false
    pid_file := none
    uid := 0
    gid := 0
    backend_ipv4 := false
    backend_ipv6 := false
    daemon := false
    upstream_no_tls := false
    downstream_no_tls := false
    subcerts := []
    downstream_http_proxy_host := none
    downstream_http_proxy_port := 0
    read_rate := 1024 * 1024
    read_burst := 4 * 1024 * 1024
    write_rate := 0
    write_burst := 0
    downstream_proto := Proto.http }

/-- One getaddrinfo result (addrinfo): family, raw address bytes, length. -/
structure AddrInfo where
  ai_family : Nat
  ai_addr : List Nat
  ai_addrlen : Nat
deriving DecidableEq

/-- Oracle for `resolve_hostname`: `getaddrinfo hostname port family socktype`
returns none on failure, or the first result together with the rest of the
result list; `getnameinfo_ok a` is whether formatting address `a` with
NI_NUMERICHOST succeeds. -/
structure ResolverSys where
  getaddrinfo : String → Nat → Nat → Nat → Option (AddrInfo × List AddrInfo)
  getnameinfo_ok : AddrInfo → Bool

/-- resolve_hostname (shrpx.cc lines 76-117): getaddrinfo with
ai_socktype = SOCK_STREAM and ai_family = the requested family; on failure
return -1 (none).  On success the first result is formatted with
getnameinfo for the log line; if that formatting fails the function also
returns -1 (none).  Otherwise the first result's address is copied out. -/
def resolve_hostname (sys : ResolverSys) (hostname : String) (port : Nat)
    (family : Nat) : Option AddrInfo :=
  match sys.getaddrinfo hostname port family SOCK_STREAM with
  | none => none
  | some (first, _) =>
    if sys.getnameinfo_ok first then some first else none

/-- One candidate address of the listener's getaddrinfo result, with the
outcome of each system call the bind loop makes on it. -/
structure Candidate where
  socket_ok : Bool
  reuseaddr_ok : Bool
  v6only_ok : Bool
  bind_ok : Bool
deriving DecidableEq

/-- The bind loop of create_evlistener (shrpx.cc lines 154-179): walk the
candidates; skip one whose socket() fails, whose SO_REUSEADDR setsockopt
fails, or (when the requested family is AF_INET6) whose IPV6_V6ONLY
setsockopt fails; stop at the first whose bind() succeeds; skip one whose
bind() fails. -/
def try_candidates (family : Nat) : List Candidate → Option Candidate
  | [] => none
  | c :: rest =>
    if c.socket_ok = false then try_candidates family rest
    else if c.reuseaddr_ok = false then try_candidates family rest
    else if family = AF_INET6 ∧ c.v6only_ok = false then try_candidates family rest
    else if c.bind_ok then some c
    else try_candidates family rest

/-- The predicate the bind loop effectively selects by: socket, reuse-addr,
(for the IPv6 family) v6-only, and bind must all succeed. -/
def listen_pred (family : Nat) (c : Candidate) : Bool :=
  c.socket_ok && c.reuseaddr_ok &&
    (if family = AF_INET6 then c.v6only_ok else true) && c.bind_ok

/-- Events the embedded control flow emits, in program order. -/
inductive Ev where
  | daemonEv
  | pidWriteEv (content : String)
  | listenAttemptEv (family : Nat)
  | setgidEv (gid : Nat)
  | setuidEv (uid : Nat)
  | setuid0Ev
  | workerEv (n : Nat)
  | http2SessionEv
  | resolveEv (hostname : String) (port : Nat) (family : Nat)
  | fatalEv
deriving DecidableEq

/-- Oracle record for the whole bootstrap: outcome of each system call.
`gai_listen` is getaddrinfo for the configured frontend host/port keyed by
address family; `listen_nameinfo_ok` is whether getnameinfo succeeds on a
bound candidate's address; `insert_ok` is whether inserting a certificate
file into the certificate lookup tree succeeds. -/
structure Sys where
  getuid : Nat
  setgid_ok : Nat → Bool
  setuid_ok : Nat → Bool
  setuid0_fails : Bool
  daemon_ok : Bool
  pid_initial : Nat
  pid_after_daemon : Nat
  pid_write_ok : Bool
  gai_listen : Nat → Option (List Candidate)
  listen_nameinfo_ok : Candidate → Bool
  resolver : ResolverSys
  insert_ok : String → Bool

/-- create_evlistener (shrpx.cc lines 128-213) for one address family:
getaddrinfo failure yields no listener (NULL, non-fatal); so does a bind
loop that exhausts its candidates.  When a candidate is bound, its address
is formatted with getnameinfo for the log line; a formatting failure is
DIE() (modelled as `Except.error`).  Otherwise the bound candidate becomes
the listener. -/
def create_evlistener (sys : Sys) (family : Nat) :
    Except Unit (Option Candidate) :=
  match sys.gai_listen family with
  | none => Except.ok none
  | some res =>
    match try_candidates family res with
    | none => Except.ok none
    | some c =>
      if sys.listen_nameinfo_ok c then Except.ok (some c) else Except.error ()

/-- The two listener-construction attempts of event_loop (shrpx.cc lines
282-283), IPv6 first then IPv4, each independent of the other's result. -/
def build_listeners (sys : Sys) :
    Except Unit (Option Candidate × Option Candidate) :=
  match create_evlistener sys AF_INET6 with
  | Except.error e => Except.error e
  | Except.ok l6 =>
    match create_evlistener sys AF_INET with
    | Except.error e => Except.error e
    | Except.ok l4 =>
      Except.ok (l6, l4)

/-- The listener phase of event_loop (shrpx.cc lines 282-288) as a
(continue?, trace) pair: attempt IPv6 then IPv4; a DIE() inside either
attempt aborts; if both attempts yield no listener, exit fatally. -/
def listen_seg (sys : Sys) : Bool × List Ev :=
  match create_evlistener sys AF_INET6 with
  | Except.error _ => (false, [Ev.listenAttemptEv AF_INET6, Ev.fatalEv])
  | Except.ok l6 =>
    match create_evlistener sys AF_INET with
    | Except.error _ =>
      (false, [Ev.listenAttemptEv AF_INET6, Ev.listenAttemptEv AF_INET, Ev.fatalEv])
    | Except.ok l4 =>
      if l6.isNone && l4.isNone then
        (false, [Ev.listenAttemptEv AF_INET6, Ev.listenAttemptEv AF_INET, Ev.fatalEv])
      else
        (true, [Ev.listenAttemptEv AF_INET6, Ev.listenAttemptEv AF_INET])

/-- drop_privileges (shrpx.cc lines 216-232): only when getuid() == 0 and a
nonzero target uid is configured, setgid then setuid; a failure of either
is fatal; finally, if setuid(0) does NOT fail (privileges regained) that
is fatal too.  `sys.setuid0_fails = true` models setuid(0) == -1. -/
def drop_privileges (sys : Sys) (cfg : Config) : Bool × List Ev :=
  if sys.getuid = 0 ∧ cfg.uid ≠ 0 then
    if sys.setgid_ok cfg.gid = false then
      (false, [Ev.setgidEv cfg.gid, Ev.fatalEv])
    else if sys.setuid_ok cfg.uid = false then
      (false, [Ev.setgidEv cfg.gid, Ev.setuidEv cfg.uid, Ev.fatalEv])
    else if sys.setuid0_fails = false then
      (false, [Ev.setgidEv cfg.gid, Ev.setuidEv cfg.uid, Ev.setuid0Ev, Ev.fatalEv])
    else
      (true, [Ev.setgidEv cfg.gid, Ev.setuidEv cfg.uid, Ev.setuid0Ev])
  else
    (true, [])

/-- The process id getpid() returns at the PID-write point: daemon(0,0)
forks, so after a requested daemonization the pid differs from the
original one. -/
def current_pid (sys : Sys) (cfg : Config) : Nat :=
  if cfg.daemon then sys.pid_after_daemon else sys.pid_initial

/-- The bytes save_pid (shrpx.cc lines 236-245) writes: the decimal pid and
one newline. -/
def pid_content (sys : Sys) (cfg : Config) : String :=
  Nat.repr (current_pid sys cfg) ++ "\n"

/-- save_pid (shrpx.cc lines 236-245): write the pid file; a failed write
is fatal (exit(EXIT_FAILURE)). -/
def save_pid (sys : Sys) (cfg : Config) : Bool × List Ev :=
  if sys.pid_write_ok then (true, [Ev.pidWriteEv (pid_content sys cfg)])
  else (false, [Ev.pidWriteEv (pid_content sys cfg), Ev.fatalEv])

/-- The daemonization step of event_loop (shrpx.cc lines 271-276): when
requested, daemon(0,0); failure is fatal. -/
def daemon_seg (sys : Sys) (cfg : Config) : Bool × List Ev :=
  if cfg.daemon then
    if sys.daemon_ok then (true, [Ev.daemonEv]) else (false, [Ev.daemonEv, Ev.fatalEv])
  else (true, [])

/-- The PID step of event_loop (shrpx.cc lines 278-280): save_pid only when
a pid file path is configured. -/
def pid_seg (sys : Sys) (cfg : Config) : Bool × List Ev :=
  match cfg.pid_file with
  | none => (true, [])
  | some _ => save_pid sys cfg

/-- The worker phase of event_loop (shrpx.cc lines 294-298): with more than
one worker create the worker threads, otherwise with an HTTP/2 (SPDY)
downstream create the shared HTTP/2 session. -/
def worker_seg (cfg : Config) : List Ev :=
  if 1 < cfg.num_worker then [Ev.workerEv cfg.num_worker]
  else if cfg.downstream_proto = Proto.spdy then [Ev.http2SessionEv]
  else []

/-- event_loop (shrpx.cc lines 249-311) as a (succeeded?, trace) pair:
daemonize, write the PID file, build the two listeners, drop privileges,
create worker contexts, each step gated on every earlier step succeeding.
The SSL-context selection and ListenHandler construction at the top of the
C function make no modelled system call and emit no event. -/
def event_loop (sys : Sys) (cfg : Config) : Bool × List Ev :=
  if (daemon_seg sys cfg).1 = false then (false, (daemon_seg sys cfg).2)
  else if (pid_seg sys cfg).1 = false then
    (false, (daemon_seg sys cfg).2 ++ (pid_seg sys cfg).2)
  else if (listen_seg sys).1 = false then
    (false, (daemon_seg sys cfg).2 ++ (pid_seg sys cfg).2 ++ (listen_seg sys).2)
  else if (drop_privileges sys cfg).1 = false then
    (false, (daemon_seg sys cfg).2 ++ (pid_seg sys cfg).2 ++ (listen_seg sys).2
      ++ (drop_privileges sys cfg).2)
  else
    (true, (daemon_seg sys cfg).2 ++ (pid_seg sys cfg).2 ++ (listen_seg sys).2
      ++ (drop_privileges sys cfg).2 ++ worker_seg cfg)

/-- Linux file-type mask of st_mode. -/
def S_IFMT : Nat := 0o170000

/-- Linux st_mode file type of a regular file. -/
def S_IFREG : Nat := 0o100000

/-- Linux st_mode file type of a symbolic link. -/
def S_IFLNK : Nat := 0o120000

/-- Linux st_mode file type of a character device. -/
def S_IFCHR : Nat := 0o020000

/-- Linux st_mode file type of a directory. -/
def S_IFDIR : Nat := 0o040000

/-- The stat buffer field conf_exists reads. -/
structure StatBuf where
  st_mode : Nat
deriving DecidableEq

/-- conf_exists (shrpx.cc lines 316-321): stat() the path (none models a
failed stat) and test `st_mode & (S_IFREG | S_IFLNK)` for a nonzero
result, C truthiness. -/
def conf_exists (stat_result : Option StatBuf) : Bool :=
  match stat_result with
  | none => false
  | some buf => Nat.land buf.st_mode (Nat.lor S_IFREG S_IFLNK) != 0

/-- What the spec and the function's own comment say conf_exists decides:
the path names a regular file or a symbolic link (its file-type bits equal
S_IFREG or S_IFLNK). -/
def spec_regular_or_symlink (buf : StatBuf) : Bool :=
  (Nat.land buf.st_mode S_IFMT == S_IFREG) || (Nat.land buf.st_mode S_IFMT == S_IFLNK)

/-- libevent's EV_RATE_LIMIT_MAX, the "unlimited" sentinel (EV_SSIZE_MAX on
a 64-bit target). -/
def EV_RATE_LIMIT_MAX : Nat := 2 ^ 63 - 1

/-- get_rate_limit (shrpx.cc lines 427-434): 0 means unlimited and becomes
the sentinel; any other value passes through. -/
def get_rate_limit (rate_limit : Nat) : Nat :=
  if rate_limit = 0 then EV_RATE_LIMIT_MAX else rate_limit

/-- The shared token-bucket descriptor, four limits in the order libevent's
constructor takes them. -/
structure TokenBucketCfg where
  read_rate : Nat
  read_burst : Nat
  write_rate : Nat
  write_burst : Nat
deriving DecidableEq

/-- libevent's ev_token_bucket_cfg_new: packs the four effective limits. -/
def ev_token_bucket_cfg_new (rr rb wr wb : Nat) : TokenBucketCfg :=
  { read_rate := rr, read_burst := rb, write_rate := wr, write_burst := wb }

/-- The rate-limit descriptor construction of main (shrpx.cc lines
1119-1124): one descriptor from the four configured values, each passed
through get_rate_limit, in the order read rate, read burst, write rate,
write burst. -/
def build_rate_limit_cfg (cfg : Config) : TokenBucketCfg :=
  ev_token_bucket_cfg_new
    (get_rate_limit cfg.read_rate)
    (get_rate_limit cfg.read_burst)
    (get_rate_limit cfg.write_rate)
    (get_rate_limit cfg.write_burst)

/-- Modelled from the spec: parse_config (shrpx_config.cc, not under src/)
applies one (key, value) setting to the configuration store; "a value
applied twice simply overwrites", so applying a setting overwrites the
key's previous value and leaves every other key unchanged.  The store is
viewed as a map from stable setting keys to values. -/
def parse_config (store : String → String) (key value : String) :
    String → String :=
  fun k => if k = key then value else store k

/-- The application loop of main (shrpx.cc lines 1006-1011): apply a list
of (key, value) entries to the store in order. -/
def apply_cfgs (store : String → String) (entries : List (String × String)) :
    String → String :=
  entries.foldl (fun s e => parse_config s e.1 e.2) store

/-- The merge phase of main (shrpx.cc lines 991-1011): the compiled-in
defaults, then the config file's entries in file order, then the
command-line entries in insertion order. -/
def merge_config (dflt : String → String) (file cli : List (String × String)) :
    String → String :=
  apply_cfgs (apply_cfgs dflt file) cli

/-- The value of the last entry of the list that sets the given key, if
any entry does. -/
def last_set : List (String × String) → String → Option String
  | [], _ => none
  | e :: es, k =>
    match last_set es k with
    | some v => some v
    | none => if e.1 = k then some e.2 else none

/-- Modelled from the spec: the stable key of the private-key setting
(shrpx_config.cc, not under src/). -/
def SHRPX_OPT_PRIVATE_KEY_FILE : String := "private-key-file"

/-- Modelled from the spec: the stable key of the certificate setting
(shrpx_config.cc, not under src/). -/
def SHRPX_OPT_CERTIFICATE_FILE : String := "certificate-file"

/-- The positional-argument step of main (shrpx.cc lines 999-1004): when at
least two positional arguments remain after flag parsing, append the first
as the private key path and the second as the certificate path to the end
of the command-line entry list; otherwise leave the list unchanged.  Any
further positional arguments are never read. -/
def append_positional_keycert (cmdcfgs : List (String × String))
    (positional : List String) : List (String × String) :=
  match positional with
  | p0 :: p1 :: _ =>
    cmdcfgs ++ [(SHRPX_OPT_PRIVATE_KEY_FILE, p0), (SHRPX_OPT_CERTIFICATE_FILE, p1)]
  | _ => cmdcfgs

/-- Modelled from the spec: a TLS server context (shrpx_ssl.cc, not under
src/) built from a private-key path and a certificate path. -/
structure SSLCtx where
  key_file : String
  cert_file : String
deriving DecidableEq

/-- Modelled from the spec: ssl::create_ssl_context (shrpx_ssl.cc, not
under src/) builds one TLS server context from the pair of paths. -/
def create_ssl_context (key cert : String) : SSLCtx :=
  { key_file := key, cert_file := cert }

/-- Modelled from the spec: the hostname-keyed certificate lookup structure
(shrpx_ssl.cc, not under src/), viewed as its list of insertions: each
entry a context keyed by the certificate file it was inserted under.
ssl::cert_lookup_tree_add_cert_from_file appends the entry and can fail
(`insert_ok` of the oracle), which the caller treats as fatal. -/
def cert_lookup_tree_add_cert_from_file (insert_ok : String → Bool)
    (tree : List (SSLCtx × String)) (ctx : SSLCtx) (certfile : String) :
    Option (List (SSLCtx × String)) :=
  if insert_ok certfile then some (tree ++ [(ctx, certfile)]) else none

/-- The subcert loop of main (shrpx.cc lines 1021-1029): for each
(key, cert) pair build a context and insert it into the lookup tree keyed
by the pair's certificate file; an insertion failure is fatal. -/
def add_subcerts (sys : Sys) (tree : List (SSLCtx × String)) :
    List (String × String) → Except Unit (List (SSLCtx × String))
  | [] => Except.ok tree
  | kc :: rest =>
    match cert_lookup_tree_add_cert_from_file sys.insert_ok tree
        (create_ssl_context kc.1 kc.2) kc.2 with
    | none => Except.error ()
    | some t => add_subcerts sys t rest

/-- The TLS context set after main's setup: the lookup tree when one was
built, and the default context when a primary key/cert pair is
configured. -/
structure TLSResult where
  cert_tree : Option (List (SSLCtx × String))
  default_ssl_ctx : Option SSLCtx
deriving DecidableEq

/-- The TLS setup of main (shrpx.cc lines 1017-1044): the lookup tree is
created exactly when at least one subcert pair is configured; each subcert
pair's context is inserted; when a primary key/cert pair is configured its
context is built and, when the tree exists, inserted too; any insertion
failure is fatal. -/
def tls_setup (sys : Sys) (cfg : Config) : Except Unit TLSResult :=
  match cfg.subcerts with
  | [] =>
    match cfg.private_key_file, cfg.cert_file with
    | some k, some c =>
      Except.ok { cert_tree := none, default_ssl_ctx := some (create_ssl_context k c) }
    | _, _ => Except.ok { cert_tree := none, default_ssl_ctx := none }
  | kc :: rest =>
    match add_subcerts sys [] (kc :: rest) with
    | Except.error e => Except.error e
    | Except.ok t =>
      match cfg.private_key_file, cfg.cert_file with
      | some k, some c =>
        match cert_lookup_tree_add_cert_from_file sys.insert_ok t
            (create_ssl_context k c) c with
        | none => Except.error ()
        | some t2 =>
          Except.ok { cert_tree := some t2,
                      default_ssl_ctx := some (create_ssl_context k c) }
      | _, _ => Except.ok { cert_tree := some t, default_ssl_ctx := none }

/-- C bool-to-int conversion as main sums the four mode flags. -/
def b2n (b : Bool) : Nat := if b then 1 else 0

/-- The sum main tests at shrpx.cc lines 1052-1053. -/
def mode_flag_sum (cfg : Config) : Nat :=
  b2n cfg.http2_proxy + b2n cfg.http2_bridge + b2n cfg.client_proxy + b2n cfg.client

/-- The address family main passes to resolve_hostname for the backend
(shrpx.cc lines 1094-1096): IPv4-only, IPv6-only or unspecified. -/
def backend_family (cfg : Config) : Nat :=
  if cfg.backend_ipv4 then AF_INET
  else if cfg.backend_ipv6 then AF_INET6
  else AF_UNSPEC

/-- main's client-mode assignment (shrpx.cc lines 1059-1061). -/
def set_client_mode (cfg : Config) : Config :=
  if cfg.client || cfg.client_proxy then { cfg with client_mode := true } else cfg

/-- main's downstream-protocol assignment (shrpx.cc lines 1063-1067). -/
def set_proto (cfg : Config) : Config :=
  if cfg.client_mode || cfg.http2_bridge then { cfg with downstream_proto := Proto.spdy }
  else { cfg with downstream_proto := Proto.http }

/-- The tail of main after the mode assignments (shrpx.cc lines 1069-1131):
the TLS-material check, backend address resolution (fatal on failure),
optional backend-HTTP-proxy resolution (fatal on failure), then
event_loop.  The syslog, rate-limit-descriptor and SIGPIPE steps between
resolution and event_loop make no modelled system call and emit no
event. -/
def main_after_checks (sys : Sys) (cfg : Config) : Bool × List Ev :=
  if (!cfg.client_mode && !cfg.upstream_no_tls) &&
      (cfg.private_key_file.isNone || cfg.cert_file.isNone) then
    (false, [Ev.fatalEv])
  else
    match resolve_hostname sys.resolver cfg.downstream_host cfg.downstream_port
        (backend_family cfg) with
    | none =>
      (false, [Ev.resolveEv cfg.downstream_host cfg.downstream_port
                 (backend_family cfg), Ev.fatalEv])
    | some _ =>
      match cfg.downstream_http_proxy_host with
      | some ph =>
        match resolve_hostname sys.resolver ph cfg.downstream_http_proxy_port
            AF_UNSPEC with
        | none =>
          (false, [Ev.resolveEv cfg.downstream_host cfg.downstream_port
                     (backend_family cfg),
                   Ev.resolveEv ph cfg.downstream_http_proxy_port AF_UNSPEC,
                   Ev.fatalEv])
        | some _ =>
          ((event_loop sys cfg).1,
            [Ev.resolveEv cfg.downstream_host cfg.downstream_port
               (backend_family cfg),
             Ev.resolveEv ph cfg.downstream_http_proxy_port AF_UNSPEC]
              ++ (event_loop sys cfg).2)
      | none =>
        ((event_loop sys cfg).1,
          [Ev.resolveEv cfg.downstream_host cfg.downstream_port
             (backend_family cfg)] ++ (event_loop sys cfg).2)

/-- main (shrpx.cc lines 1017-1131) from the TLS setup on, for a merged
configuration: TLS context/tree construction, the backend-family
exclusivity check, the mode-flag exclusivity check, the mode assignments,
then `main_after_checks`.  Each fatal check exits before anything after
it runs. -/
def main_model (sys : Sys) (cfg : Config) : Bool × List Ev :=
  match tls_setup sys cfg with
  | Except.error _ => (false, [Ev.fatalEv])
  | Except.ok _ =>
    if cfg.backend_ipv4 && cfg.backend_ipv6 then (false, [Ev.fatalEv])
    else if 1 < mode_flag_sum cfg then (false, [Ev.fatalEv])
    else main_after_checks sys (set_proto (set_client_mode cfg))

/-- The three privilege-transition events of drop_privileges. -/
def isDropEv : Ev → Bool
  | Ev.setgidEv _ => true
  | Ev.setuidEv _ => true
  | Ev.setuid0Ev => true
  | _ => false

/-- Events that are a network action (address resolution, socket
creation/binding attempt) or a privilege / process-lifecycle action
(daemonization, PID write, privilege transition). -/
def is_net_or_priv_ev : Ev → Bool
  | Ev.resolveEv _ _ _ => true
  | Ev.listenAttemptEv _ => true
  | Ev.daemonEv => true
  | Ev.pidWriteEv _ => true
  | Ev.setgidEv _ => true
  | Ev.setuidEv _ => true
  | Ev.setuid0Ev => true
  | _ => false

/-- Splitting a concatenation at an element that is not in the left part:
the split point lies in the right part. -/
theorem append_cons_split {α : Type} {e : α} :
    ∀ (A : List α) {B l1 l2 : List α}, A ++ B = l1 ++ e :: l2 → e ∉ A →
      ∃ m, l1 = A ++ m ∧ B = m ++ e :: l2 := by
  intro A
  induction A with
  | nil =>
    intro B l1 l2 h _
    exact ⟨l1, rfl, h⟩
  | cons a A ih =>
    intro B l1 l2 h he
    cases l1 with
    | nil =>
      simp only [List.nil_append, List.cons_append] at h
      rw [List.cons_eq_cons] at h
      exact absurd (h.1 ▸ List.mem_cons_self a A) (fun hm => he hm)
    | cons x l1 =>
      simp only [List.cons_append] at h
      rw [List.cons_eq_cons] at h
      obtain ⟨m, hl1, hB⟩ := ih h.2 (fun hm => he (List.mem_cons_of_mem a hm))
      exact ⟨m, by rw [h.1, hl1, List.cons_append], hB⟩

/-- An element at a split point is a member of the list. -/
theorem mem_of_eq_append_cons {α : Type} {A l1 l2 : List α} {e : α}
    (h : A = l1 ++ e :: l2) : e ∈ A := by
  rw [h]
  exact List.mem_append.mpr (Or.inr (List.mem_cons_self e l2))

/-- The daemonization phase emits only the daemonization event and the
fatal marker. -/
theorem daemon_seg_mem (sys : Sys) (cfg : Config) :
    ∀ e ∈ (daemon_seg sys cfg).2, e = Ev.daemonEv ∨ e = Ev.fatalEv := by
  intro e he
  unfold daemon_seg at he
  split at he
  · split at he <;> simp at he <;> tauto
  · simp at he

/-- The PID phase emits only the PID-write event, with the pid-file
content, and the fatal marker. -/
theorem pid_seg_mem (sys : Sys) (cfg : Config) :
    ∀ e ∈ (pid_seg sys cfg).2,
      e = Ev.pidWriteEv (pid_content sys cfg) ∨ e = Ev.fatalEv := by
  intro e he
  unfold pid_seg save_pid at he
  split at he
  · simp at he
  · split at he <;> simp at he <;> tauto

/-- The listener phase emits only the two attempt events and the fatal
marker. -/
theorem listen_seg_mem (sys : Sys) :
    ∀ e ∈ (listen_seg sys).2,
      e = Ev.listenAttemptEv AF_INET6 ∨ e = Ev.listenAttemptEv AF_INET ∨
        e = Ev.fatalEv := by
  intro e he
  unfold listen_seg at he
  split at he
  · simp at he; tauto
  · split at he
    · simp at he; tauto
    · split at he <;> simp at he <;> tauto

/-- The privilege-drop phase emits only the three privilege events and the
fatal marker. -/
theorem drop_privileges_mem (sys : Sys) (cfg : Config) :
    ∀ e ∈ (drop_privileges sys cfg).2,
      e = Ev.setgidEv cfg.gid ∨ e = Ev.setuidEv cfg.uid ∨ e = Ev.setuid0Ev ∨
        e = Ev.fatalEv := by
  intro e he
  unfold drop_privileges at he
  split at he
  · split at he
    · simp at he; tauto
    · split at he
      · simp at he; tauto
      · split at he <;> simp at he <;> tauto
  · simp at he

/-- The worker phase emits only the worker-thread or HTTP/2-session
event. -/
theorem worker_seg_mem (cfg : Config) :
    ∀ e ∈ worker_seg cfg,
      e = Ev.workerEv cfg.num_worker ∨ e = Ev.http2SessionEv := by
  intro e he
  unfold worker_seg at he
  split at he
  · simp at he; tauto
  · split at he <;> simp at he <;> tauto

/-- The daemonization phase succeeds exactly when it is not requested or
daemon(0,0) succeeds. -/
theorem daemon_seg_ok_iff (sys : Sys) (cfg : Config) :
    (daemon_seg sys cfg).1 = true ↔ (cfg.daemon = true → sys.daemon_ok = true) := by
  unfold daemon_seg
  cases hd : cfg.daemon <;> cases ho : sys.daemon_ok <;> simp [hd, ho]

/-- A successful requested daemonization leaves exactly the daemonization
event. -/
theorem daemon_seg_ok_trace (sys : Sys) (cfg : Config)
    (h1 : (daemon_seg sys cfg).1 = true) (h2 : cfg.daemon = true) :
    (daemon_seg sys cfg).2 = [Ev.daemonEv] := by
  unfold daemon_seg at h1 ⊢
  cases ho : sys.daemon_ok <;> simp [h2, ho] at h1 ⊢

/-- When daemonization is requested, its phase emits the daemonization
event. -/
theorem daemon_seg_daemon_mem (sys : Sys) (cfg : Config) (h : cfg.daemon = true) :
    Ev.daemonEv ∈ (daemon_seg sys cfg).2 := by
  unfold daemon_seg
  cases ho : sys.daemon_ok <;> simp [h, ho]

/-- An unconfigured pid file leaves the PID phase empty. -/
theorem pid_seg_none (sys : Sys) (cfg : Config) (h : cfg.pid_file = none) :
    (pid_seg sys cfg).2 = [] := by
  unfold pid_seg
  rw [h]

/-- A configured pid file makes the PID phase emit the write event with
the pid-file content. -/
theorem pid_seg_write_mem (sys : Sys) (cfg : Config)
    (h : cfg.pid_file.isSome = true) :
    Ev.pidWriteEv (pid_content sys cfg) ∈ (pid_seg sys cfg).2 := by
  unfold pid_seg save_pid
  cases hp : cfg.pid_file with
  | none => rw [hp] at h; simp at h
  | some p => cases hw : sys.pid_write_ok <;> simp [hw]

/-- A PID-write event in the PID phase carries the pid-file content and
only occurs when a pid file is configured. -/
theorem pid_seg_content (sys : Sys) (cfg : Config) (c : String)
    (h : Ev.pidWriteEv c ∈ (pid_seg sys cfg).2) :
    c = pid_content sys cfg ∧ cfg.pid_file.isSome = true := by
  unfold pid_seg save_pid at h
  cases hp : cfg.pid_file with
  | none => rw [hp] at h; simp at h
  | some p =>
    rw [hp] at h
    refine ⟨?_, rfl⟩
    cases hw : sys.pid_write_ok <;> simp [hw] at h <;> tauto

/-- A configured pid file whose write fails makes the PID phase fail with
a fatal event. -/
theorem pid_seg_fail (sys : Sys) (cfg : Config)
    (h : cfg.pid_file.isSome = true) (hw : sys.pid_write_ok = false) :
    (pid_seg sys cfg).1 = false ∧ Ev.fatalEv ∈ (pid_seg sys cfg).2 := by
  unfold pid_seg save_pid
  cases hp : cfg.pid_file with
  | none => rw [hp] at h; simp at h
  | some p => simp [hw]

/-- A PID phase that succeeds did not have a failing configured write. -/
theorem pid_seg_ok_iff (sys : Sys) (cfg : Config) :
    (pid_seg sys cfg).1 = true ↔
      (cfg.pid_file.isSome = true → sys.pid_write_ok = true) := by
  unfold pid_seg save_pid
  cases hp : cfg.pid_file <;> cases hw : sys.pid_write_ok <;> simp [hw]

/-- A successful listener phase leaves exactly the two attempt events,
IPv6 first. -/
theorem listen_seg_ok_trace (sys : Sys) (h : (listen_seg sys).1 = true) :
    (listen_seg sys).2 =
      [Ev.listenAttemptEv AF_INET6, Ev.listenAttemptEv AF_INET] := by
  unfold listen_seg at h ⊢
  cases h6 : create_evlistener sys AF_INET6 with
  | error e => simp [h6] at h
  | ok l6 =>
    cases h4 : create_evlistener sys AF_INET with
    | error e => simp [h6, h4] at h
    | ok l4 =>
      by_cases hn : (l6.isNone && l4.isNone) = true
      · simp [h6, h4, hn] at h
      · simp [h6, h4, hn]

/-- Privilege drop emits an event exactly when the process runs as the
superuser and a non-superuser target uid is configured. -/
theorem drop_privileges_attempted_iff (sys : Sys) (cfg : Config) :
    (drop_privileges sys cfg).2 ≠ [] ↔ (sys.getuid = 0 ∧ cfg.uid ≠ 0) := by
  unfold drop_privileges
  by_cases hc : sys.getuid = 0 ∧ cfg.uid ≠ 0
  · rw [if_pos hc]
    cases hg : sys.setgid_ok cfg.gid <;> cases hu : sys.setuid_ok cfg.uid <;>
      cases h0 : sys.setuid0_fails <;> simp [hg, hu, h0, hc]
  · rw [if_neg hc]
    simp [hc]

/-- A successful attempted privilege drop leaves exactly the setgid,
setuid, setuid(0)-check events, in that order. -/
theorem drop_privileges_ok_trace (sys : Sys) (cfg : Config)
    (hc : sys.getuid = 0 ∧ cfg.uid ≠ 0)
    (h : (drop_privileges sys cfg).1 = true) :
    (drop_privileges sys cfg).2 =
      [Ev.setgidEv cfg.gid, Ev.setuidEv cfg.uid, Ev.setuid0Ev] := by
  unfold drop_privileges at h ⊢
  rw [if_pos hc] at h ⊢
  cases hg : sys.setgid_ok cfg.gid <;> cases hu : sys.setuid_ok cfg.uid <;>
    cases h0 : sys.setuid0_fails <;> simp_all [hg, hu, h0]

/-- event_loop runs its five phases in order, each gated on every earlier
phase succeeding: exactly one of the five stop points applies. -/
theorem event_loop_cases (sys : Sys) (cfg : Config) :
    ((daemon_seg sys cfg).1 = false ∧
       event_loop sys cfg = (false, (daemon_seg sys cfg).2)) ∨
    ((daemon_seg sys cfg).1 = true ∧ (pid_seg sys cfg).1 = false ∧
       event_loop sys cfg = (false, (daemon_seg sys cfg).2 ++ (pid_seg sys cfg).2)) ∨
    ((daemon_seg sys cfg).1 = true ∧ (pid_seg sys cfg).1 = true ∧
       (listen_seg sys).1 = false ∧
       event_loop sys cfg =
         (false, (daemon_seg sys cfg).2 ++ (pid_seg sys cfg).2 ++ (listen_seg sys).2)) ∨
    ((daemon_seg sys cfg).1 = true ∧ (pid_seg sys cfg).1 = true ∧
       (listen_seg sys).1 = true ∧ (drop_privileges sys cfg).1 = false ∧
       event_loop sys cfg =
         (false, (daemon_seg sys cfg).2 ++ (pid_seg sys cfg).2 ++ (listen_seg sys).2
            ++ (drop_privileges sys cfg).2)) ∨
    ((daemon_seg sys cfg).1 = true ∧ (pid_seg sys cfg).1 = true ∧
       (listen_seg sys).1 = true ∧ (drop_privileges sys cfg).1 = true ∧
       event_loop sys cfg =
         (true, (daemon_seg sys cfg).2 ++ (pid_seg sys cfg).2 ++ (listen_seg sys).2
            ++ (drop_privileges sys cfg).2 ++ worker_seg cfg)) := by
  cases h1 : (daemon_seg sys cfg).1 <;> cases h2 : (pid_seg sys cfg).1 <;>
    cases h3 : (listen_seg sys).1 <;> cases h4 : (drop_privileges sys cfg).1 <;>
    simp [event_loop, h1, h2, h3, h4]

/-- Splitting a nonempty list at an element: either the split is at the
head or strictly inside the tail. -/
theorem cons_eq_append_cons {α : Type} {a e : α} {A l1 l2 : List α}
    (h : a :: A = l1 ++ e :: l2) :
    (l1 = [] ∧ a = e ∧ A = l2) ∨ ∃ m, l1 = a :: m ∧ A = m ++ e :: l2 := by
  cases l1 with
  | nil =>
    simp only [List.nil_append] at h
    rw [List.cons_eq_cons] at h
    exact Or.inl ⟨rfl, h.1, h.2⟩
  | cons x m =>
    simp only [List.cons_append] at h
    rw [List.cons_eq_cons] at h
    exact Or.inr ⟨m, by rw [h.1], h.2⟩

/-- The three possible shapes of the privilege-drop trace: not attempted,
stopped at a failed setgid, or setgid followed by setuid followed by the
rest. -/
theorem drop_privileges_trace_shape (sys : Sys) (cfg : Config) :
    (drop_privileges sys cfg).2 = [] ∨
    (drop_privileges sys cfg).2 = [Ev.setgidEv cfg.gid, Ev.fatalEv] ∨
    ∃ rest, (drop_privileges sys cfg).2 =
      Ev.setgidEv cfg.gid :: Ev.setuidEv cfg.uid :: rest := by
  unfold drop_privileges
  by_cases hc : sys.getuid = 0 ∧ cfg.uid ≠ 0
  · rw [if_pos hc]
    cases hg : sys.setgid_ok cfg.gid <;> cases hu : sys.setuid_ok cfg.uid <;>
      cases h0 : sys.setuid0_fails <;> simp [hg, hu, h0]
  · rw [if_neg hc]
    simp

/-- Privilege-transition events do not occur before the privilege-drop
phase of event_loop. -/
theorem isDropEv_false_of_mem_pre (sys : Sys) (cfg : Config) (e : Ev)
    (h : e ∈ (daemon_seg sys cfg).2 ++ (pid_seg sys cfg).2 ++ (listen_seg sys).2) :
    isDropEv e = false := by
  rcases List.mem_append.mp h with h | h
  · rcases List.mem_append.mp h with h | h
    · rcases daemon_seg_mem sys cfg e h with rfl | rfl <;> rfl
    · rcases pid_seg_mem sys cfg e h with rfl | rfl <;> rfl
  · rcases listen_seg_mem sys e h with rfl | rfl | rfl <;> rfl

/-- The worker-creation event does not occur before the worker phase of
event_loop. -/
theorem workerEv_not_mem_pre (sys : Sys) (cfg : Config) (n : Nat) :
    Ev.workerEv n ∉ (daemon_seg sys cfg).2 ++ (pid_seg sys cfg).2
      ++ (listen_seg sys).2 ++ (drop_privileges sys cfg).2 := by
  intro h
  rcases List.mem_append.mp h with h | h
  · rcases List.mem_append.mp h with h | h
    · rcases List.mem_append.mp h with h | h
      · rcases daemon_seg_mem sys cfg _ h with h | h <;> simp at h
      · rcases pid_seg_mem sys cfg _ h with h | h <;> simp at h
    · rcases listen_seg_mem sys _ h with h | h | h <;> simp at h
  · rcases drop_privileges_mem sys cfg _ h with h | h | h | h <;> simp at h

/-- C1: privilege drop is attempted if and only if the process's user id
is the superuser's and a non-superuser target uid is configured; an
attempted drop emits setgid strictly before setuid and the setuid(0)
re-acquisition check strictly after setuid; a setuid(0) call that does not
fail makes drop_privileges fatal; within event_loop every
privilege-transition event is preceded by both listener-construction
attempts, and the worker-creation event is preceded by the whole
privilege-drop phase and followed by no privilege-transition event. -/
theorem privilege_drop_conditions_and_order (sys : Sys) (cfg : Config) :
    ((drop_privileges sys cfg).2 ≠ [] ↔ (sys.getuid = 0 ∧ cfg.uid ≠ 0)) ∧
    (∀ l1 u l2, (drop_privileges sys cfg).2 = l1 ++ Ev.setuidEv u :: l2 →
       Ev.setgidEv cfg.gid ∈ l1) ∧
    (∀ l1 l2, (drop_privileges sys cfg).2 = l1 ++ Ev.setuid0Ev :: l2 →
       Ev.setuidEv cfg.uid ∈ l1) ∧
    ((sys.getuid = 0 ∧ cfg.uid ≠ 0) → sys.setgid_ok cfg.gid = true →
       sys.setuid_ok cfg.uid = true → sys.setuid0_fails = false →
       (drop_privileges sys cfg).1 = false ∧
         Ev.fatalEv ∈ (drop_privileges sys cfg).2) ∧
    (∀ l1 e l2, isDropEv e = true →
       (event_loop sys cfg).2 = l1 ++ e :: l2 →
       Ev.listenAttemptEv AF_INET6 ∈ l1 ∧ Ev.listenAttemptEv AF_INET ∈ l1) ∧
    (∀ l1 n l2, (event_loop sys cfg).2 = l1 ++ Ev.workerEv n :: l2 →
       (∀ e ∈ l2, isDropEv e = false) ∧
       ((sys.getuid = 0 ∧ cfg.uid ≠ 0) → Ev.setuid0Ev ∈ l1)) := by
  refine ⟨drop_privileges_attempted_iff sys cfg, ?_, ?_, ?_, ?_, ?_⟩
  · intro l1 u l2 h
    rcases drop_privileges_trace_shape sys cfg with hs | hs | ⟨rest, hs⟩ <;> rw [hs] at h
    · cases l1 <;> simp at h
    · rcases cons_eq_append_cons h with ⟨_, hae, _⟩ | ⟨m, hl1, _⟩
      · simp at hae
      · rw [hl1]; exact List.mem_cons_self _ _
    · rcases cons_eq_append_cons h with ⟨_, hae, _⟩ | ⟨m, hl1, _⟩
      · simp at hae
      · rw [hl1]; exact List.mem_cons_self _ _
  · intro l1 l2 h
    rcases drop_privileges_trace_shape sys cfg with hs | hs | ⟨rest, hs⟩ <;> rw [hs] at h
    · cases l1 <;> simp at h
    · have := mem_of_eq_append_cons h
      simp at this
    · rcases cons_eq_append_cons h with ⟨_, hae, _⟩ | ⟨m, hl1, h2⟩
      · simp at hae
      · rcases cons_eq_append_cons h2 with ⟨_, hae, _⟩ | ⟨m2, hm, _⟩
        · simp at hae
        · rw [hl1, hm]
          exact List.mem_cons_of_mem _ (List.mem_cons_self _ _)
  · intro hc hg hu h0
    unfold drop_privileges
    rw [if_pos hc]
    simp [hg, hu, h0]
  · intro l1 e l2 hde htr
    rcases event_loop_cases sys cfg with ⟨h1, heq⟩ | ⟨h1, h2, heq⟩ |
      ⟨h1, h2, h3, heq⟩ | ⟨h1, h2, h3, h4, heq⟩ | ⟨h1, h2, h3, h4, heq⟩
    · rw [heq] at htr
      have hm := mem_of_eq_append_cons htr
      rcases daemon_seg_mem sys cfg e hm with rfl | rfl <;> simp [isDropEv] at hde
    · rw [heq] at htr
      have hm := mem_of_eq_append_cons htr
      rcases List.mem_append.mp hm with hm | hm
      · rcases daemon_seg_mem sys cfg e hm with rfl | rfl <;> simp [isDropEv] at hde
      · rcases pid_seg_mem sys cfg e hm with rfl | rfl <;> simp [isDropEv] at hde
    · rw [heq] at htr
      have hm := mem_of_eq_append_cons htr
      rw [isDropEv_false_of_mem_pre sys cfg e hm] at hde
      simp at hde
    · rw [heq] at htr
      simp only [Prod.snd] at htr
      obtain ⟨m, hl1, _⟩ := append_cons_split
        ((daemon_seg sys cfg).2 ++ (pid_seg sys cfg).2 ++ (listen_seg sys).2) htr
        (fun hm => by rw [isDropEv_false_of_mem_pre sys cfg e hm] at hde; simp at hde)
      have hlt := listen_seg_ok_trace sys h3
      rw [hl1]
      constructor
      · exact List.mem_append.mpr (Or.inl (List.mem_append.mpr (Or.inr (by rw [hlt]; simp))))
      · exact List.mem_append.mpr (Or.inl (List.mem_append.mpr (Or.inr (by rw [hlt]; simp))))
    · rw [heq] at htr
      simp only [Prod.snd] at htr
      rw [List.append_assoc ((daemon_seg sys cfg).2 ++ (pid_seg sys cfg).2 ++ (listen_seg sys).2)
        (drop_privileges sys cfg).2 (worker_seg cfg)] at htr
      obtain ⟨m, hl1, _⟩ := append_cons_split
        ((daemon_seg sys cfg).2 ++ (pid_seg sys cfg).2 ++ (listen_seg sys).2) htr
        (fun hm => by rw [isDropEv_false_of_mem_pre sys cfg e hm] at hde; simp at hde)
      have hlt := listen_seg_ok_trace sys h3
      rw [hl1]
      constructor
      · exact List.mem_append.mpr (Or.inl (List.mem_append.mpr (Or.inr (by rw [hlt]; simp))))
      · exact List.mem_append.mpr (Or.inl (List.mem_append.mpr (Or.inr (by rw [hlt]; simp))))
  · intro l1 n l2 htr
    rcases event_loop_cases sys cfg with ⟨h1, heq⟩ | ⟨h1, h2, heq⟩ |
      ⟨h1, h2, h3, heq⟩ | ⟨h1, h2, h3, h4, heq⟩ | ⟨h1, h2, h3, h4, heq⟩
    · rw [heq] at htr
      have hm := mem_of_eq_append_cons htr
      rcases daemon_seg_mem sys cfg _ hm with hm | hm <;> simp at hm
    · rw [heq] at htr
      have hm := mem_of_eq_append_cons htr
      rcases List.mem_append.mp hm with hm | hm
      · rcases daemon_seg_mem sys cfg _ hm with hm | hm <;> simp at hm
      · rcases pid_seg_mem sys cfg _ hm with hm | hm <;> simp at hm
    · rw [heq] at htr
      have hm := mem_of_eq_append_cons htr
      rcases List.mem_append.mp hm with hm | hm
      · rcases List.mem_append.mp hm with hm | hm
        · rcases daemon_seg_mem sys cfg _ hm with hm | hm <;> simp at hm
        · rcases pid_seg_mem sys cfg _ hm with hm | hm <;> simp at hm
      · rcases listen_seg_mem sys _ hm with hm | hm | hm <;> simp at hm
    · rw [heq] at htr
      have hm := mem_of_eq_append_cons htr
      exact absurd hm (workerEv_not_mem_pre sys cfg n)
    · rw [heq] at htr
      simp only [Prod.snd] at htr
      obtain ⟨m, hl1, hw⟩ := append_cons_split
        ((daemon_seg sys cfg).2 ++ (pid_seg sys cfg).2 ++ (listen_seg sys).2
          ++ (drop_privileges sys cfg).2) htr (workerEv_not_mem_pre sys cfg n)
      constructor
      · unfold worker_seg at hw
        split at hw
        · rcases cons_eq_append_cons hw with ⟨_, _, hl2⟩ | ⟨m2, _, hm2⟩
          · rw [← hl2]; intro e he; simp at he
          · have : Ev.workerEv n ∈ ([] : List Ev) := by
              rw [hm2]
              exact List.mem_append.mpr (Or.inr (List.mem_cons_self _ _))
            simp at this
        · split at hw
          · have : Ev.workerEv n ∈ [Ev.http2SessionEv] := by
              rw [hw]
              exact List.mem_append.mpr (Or.inr (List.mem_cons_self _ _))
            simp at this
          · have : Ev.workerEv n ∈ ([] : List Ev) := by
              rw [hw]
              exact List.mem_append.mpr (Or.inr (List.mem_cons_self _ _))
            simp at this
      · intro hc
        have hdt := drop_privileges_ok_trace sys cfg hc h4
        rw [hl1]
        refine List.mem_append.mpr (Or.inl (List.mem_append.mpr (Or.inr ?_)))
        rw [hdt]
        simp

/-- The daemonization phase never emits a PID-write event. -/
theorem pidWriteEv_not_mem_daemon (sys : Sys) (cfg : Config) (c : String) :
    Ev.pidWriteEv c ∉ (daemon_seg sys cfg).2 := by
  intro h
  rcases daemon_seg_mem sys cfg _ h with h | h <;> simp at h

/-- The trace of event_loop is the daemonization trace alone, or extends
it after a successful daemonization phase. -/
theorem event_loop_trace_prefix (sys : Sys) (cfg : Config) :
    (event_loop sys cfg).2 = (daemon_seg sys cfg).2 ∨
    ∃ B, (event_loop sys cfg).2 = (daemon_seg sys cfg).2 ++ B ∧
      (daemon_seg sys cfg).1 = true := by
  rcases event_loop_cases sys cfg with ⟨h1, heq⟩ | ⟨h1, h2, heq⟩ |
    ⟨h1, h2, h3, heq⟩ | ⟨h1, h2, h3, h4, heq⟩ | ⟨h1, h2, h3, h4, heq⟩
  · exact Or.inl (by rw [heq])
  · exact Or.inr ⟨(pid_seg sys cfg).2, by rw [heq], h1⟩
  · exact Or.inr ⟨(pid_seg sys cfg).2 ++ (listen_seg sys).2,
      by rw [heq]; simp [List.append_assoc], h1⟩
  · exact Or.inr ⟨(pid_seg sys cfg).2 ++ (listen_seg sys).2
      ++ (drop_privileges sys cfg).2, by rw [heq]; simp [List.append_assoc], h1⟩
  · exact Or.inr ⟨(pid_seg sys cfg).2 ++ (listen_seg sys).2
      ++ (drop_privileges sys cfg).2 ++ worker_seg cfg,
      by rw [heq]; simp [List.append_assoc], h1⟩

/-- A PID-write event of event_loop carries the pid-file content and only
occurs when a pid file is configured. -/
theorem pidWrite_content_of_mem (sys : Sys) (cfg : Config) (c : String)
    (hm : Ev.pidWriteEv c ∈ (event_loop sys cfg).2) :
    c = pid_content sys cfg ∧ cfg.pid_file.isSome = true := by
  rcases event_loop_cases sys cfg with ⟨h1, heq⟩ | ⟨h1, h2, heq⟩ |
    ⟨h1, h2, h3, heq⟩ | ⟨h1, h2, h3, h4, heq⟩ | ⟨h1, h2, h3, h4, heq⟩ <;>
    rw [heq] at hm <;> simp only [Prod.snd] at hm
  · exact absurd hm (pidWriteEv_not_mem_daemon sys cfg c)
  · rcases List.mem_append.mp hm with hm | hm
    · exact absurd hm (pidWriteEv_not_mem_daemon sys cfg c)
    · exact pid_seg_content sys cfg c hm
  · rcases List.mem_append.mp hm with hm | hm
    · rcases List.mem_append.mp hm with hm | hm
      · exact absurd hm (pidWriteEv_not_mem_daemon sys cfg c)
      · exact pid_seg_content sys cfg c hm
    · rcases listen_seg_mem sys _ hm with hm | hm | hm <;> simp at hm
  · rcases List.mem_append.mp hm with hm | hm
    · rcases List.mem_append.mp hm with hm | hm
      · rcases List.mem_append.mp hm with hm | hm
        · exact absurd hm (pidWriteEv_not_mem_daemon sys cfg c)
        · exact pid_seg_content sys cfg c hm
      · rcases listen_seg_mem sys _ hm with hm | hm | hm <;> simp at hm
    · rcases drop_privileges_mem sys cfg _ hm with hm | hm | hm | hm <;> simp at hm
  · rcases List.mem_append.mp hm with hm | hm
    · rcases List.mem_append.mp hm with hm | hm
      · rcases List.mem_append.mp hm with hm | hm
        · rcases List.mem_append.mp hm with hm | hm
          · exact absurd hm (pidWriteEv_not_mem_daemon sys cfg c)
          · exact pid_seg_content sys cfg c hm
        · rcases listen_seg_mem sys _ hm with hm | hm | hm <;> simp at hm
      · rcases drop_privileges_mem sys cfg _ hm with hm | hm | hm | hm <;> simp at hm
    · rcases worker_seg_mem cfg _ hm with hm | hm <;> simp at hm

/-- C4: daemonization, when requested, happens before the PID write;
the PID file content is exactly the decimal process id captured after
daemonization followed by one newline; the write happens exactly when a
pid file is configured; and a failing write is a fatal exit. -/
theorem daemon_before_pid_write (sys : Sys) (cfg : Config) :
    (∀ l1 c l2, (event_loop sys cfg).2 = l1 ++ Ev.pidWriteEv c :: l2 →
       (cfg.daemon = true → Ev.daemonEv ∈ l1) ∧
       c = pid_content sys cfg ∧ cfg.pid_file.isSome = true) ∧
    (pid_content sys cfg = Nat.repr (current_pid sys cfg) ++ "\n") ∧
    (cfg.daemon = true → current_pid sys cfg = sys.pid_after_daemon) ∧
    (cfg.pid_file.isSome = true → (cfg.daemon = true → sys.daemon_ok = true) →
       Ev.pidWriteEv (pid_content sys cfg) ∈ (event_loop sys cfg).2) ∧
    (cfg.pid_file.isSome = true → (cfg.daemon = true → sys.daemon_ok = true) →
       sys.pid_write_ok = false →
       (event_loop sys cfg).1 = false ∧ Ev.fatalEv ∈ (event_loop sys cfg).2) := by
  refine ⟨?_, rfl, ?_, ?_, ?_⟩
  · intro l1 c l2 htr
    refine ⟨?_, pidWrite_content_of_mem sys cfg c (mem_of_eq_append_cons htr)⟩
    intro hdm
    rcases event_loop_trace_prefix sys cfg with heq | ⟨B, heq, h1⟩
    · rw [heq] at htr
      exact absurd (mem_of_eq_append_cons htr) (pidWriteEv_not_mem_daemon sys cfg c)
    · rw [heq] at htr
      obtain ⟨m, hl1, _⟩ := append_cons_split (daemon_seg sys cfg).2 htr
        (pidWriteEv_not_mem_daemon sys cfg c)
      rw [hl1, daemon_seg_ok_trace sys cfg h1 hdm]
      exact List.mem_append.mpr (Or.inl (List.mem_cons_self _ _))
  · intro hdm
    unfold current_pid
    rw [hdm]
    rfl
  · intro hps hdo
    have h1 : (daemon_seg sys cfg).1 = true := (daemon_seg_ok_iff sys cfg).mpr hdo
    have hw := pid_seg_write_mem sys cfg hps
    rcases event_loop_cases sys cfg with ⟨hb, heq⟩ | ⟨hb, h2, heq⟩ |
      ⟨hb, h2, h3, heq⟩ | ⟨hb, h2, h3, h4, heq⟩ | ⟨hb, h2, h3, h4, heq⟩
    · rw [h1] at hb; simp at hb
    · rw [heq]
      exact List.mem_append.mpr (Or.inr hw)
    · rw [heq]
      exact List.mem_append.mpr (Or.inl (List.mem_append.mpr (Or.inr hw)))
    · rw [heq]
      exact List.mem_append.mpr (Or.inl (List.mem_append.mpr (Or.inl
        (List.mem_append.mpr (Or.inr hw)))))
    · rw [heq]
      exact List.mem_append.mpr (Or.inl (List.mem_append.mpr (Or.inl
        (List.mem_append.mpr (Or.inl (List.mem_append.mpr (Or.inr hw)))))))
  · intro hps hdo hwf
    have h1 : (daemon_seg sys cfg).1 = true := (daemon_seg_ok_iff sys cfg).mpr hdo
    obtain ⟨hpf, hfa⟩ := pid_seg_fail sys cfg hps hwf
    rcases event_loop_cases sys cfg with ⟨hb, heq⟩ | ⟨hb, h2, heq⟩ |
      ⟨hb, h2, h3, heq⟩ | ⟨hb, h2, h3, h4, heq⟩ | ⟨hb, h2, h3, h4, heq⟩
    · rw [h1] at hb; simp at hb
    · rw [heq]
      exact ⟨rfl, List.mem_append.mpr (Or.inr hfa)⟩
    · rw [hpf] at h2; simp at h2
    · rw [hpf] at h2; simp at h2
    · rw [hpf] at h2; simp at h2

/-- Applying a list of settings to a store keeps, for each key, the last
entry that set it, and the prior store value otherwise. -/
theorem apply_cfgs_last_set (entries : List (String × String)) :
    ∀ (store : String → String) (k : String),
      apply_cfgs store entries k = (last_set entries k).getD (store k) := by
  induction entries with
  | nil => intro store k; rfl
  | cons e es ih =>
    intro store k
    have hstep : apply_cfgs store (e :: es) k =
        apply_cfgs (parse_config store e.1 e.2) es k := rfl
    rw [hstep, ih]
    cases h : last_set es k with
    | some v => simp [last_set, h]
    | none =>
      simp only [last_set, h, Option.getD, parse_config]
      by_cases hk : k = e.1
      · rw [if_pos hk, if_pos hk.symm]
      · rw [if_neg hk, if_neg (fun hh => hk hh.symm)]

/-- The last setter of a key in a concatenation: the right part wins when
it sets the key. -/
theorem last_set_append (A B : List (String × String)) (k : String) :
    last_set (A ++ B) k =
      match last_set B k with
      | some v => some v
      | none => last_set A k := by
  induction A with
  | nil =>
    simp only [List.nil_append, last_set]
    cases last_set B k <;> rfl
  | cons e A ih =>
    show (match last_set (A ++ B) k with
      | some v => some v
      | none => if e.1 = k then some e.2 else none) = _
    rw [ih]
    cases last_set B k
    · rfl
    · rfl

/-- C3: after the merge phase every setting holds the value assigned by
the last source that set it: sources are applied as defaults, then config
file entries in order, then command-line entries in insertion order, so a
CLI entry overrides a file entry, a file entry overrides the default, and
a later entry overrides an earlier one for the same key. -/
theorem config_merge_last_writer_wins (dflt : String → String)
    (file cli : List (String × String)) (k : String) :
    merge_config dflt file cli k =
      ((last_set (file ++ cli) k).getD (dflt k)) ∧
    merge_config dflt file cli k =
      ((last_set cli k).getD ((last_set file k).getD (dflt k))) := by
  constructor
  · rw [merge_config, apply_cfgs_last_set, apply_cfgs_last_set, last_set_append]
    cases last_set cli k <;> simp
  · rw [merge_config, apply_cfgs_last_set, apply_cfgs_last_set]

/-- C10: one leftover positional argument is ignored; with two or more,
exactly the first two are appended after every flag-derived entry, first
as the private-key path and second as the certificate path, so they
override any earlier setting of those keys from any source; positional
arguments beyond the first two are ignored. -/
theorem positional_args_key_cert (flags : List (String × String))
    (p0 p1 p : String) (rest : List String)
    (dflt : String → String) (file : List (String × String)) :
    append_positional_keycert flags [] = flags ∧
    append_positional_keycert flags [p] = flags ∧
    append_positional_keycert flags (p0 :: p1 :: rest) =
      flags ++ [(SHRPX_OPT_PRIVATE_KEY_FILE, p0), (SHRPX_OPT_CERTIFICATE_FILE, p1)] ∧
    append_positional_keycert flags (p0 :: p1 :: rest) =
      append_positional_keycert flags [p0, p1] ∧
    merge_config dflt file (append_positional_keycert flags (p0 :: p1 :: rest))
      SHRPX_OPT_PRIVATE_KEY_FILE = p0 ∧
    merge_config dflt file (append_positional_keycert flags (p0 :: p1 :: rest))
      SHRPX_OPT_CERTIFICATE_FILE = p1 := by
  refine ⟨rfl, rfl, rfl, rfl, ?_, ?_⟩
  · show merge_config dflt file
      (flags ++ [(SHRPX_OPT_PRIVATE_KEY_FILE, p0), (SHRPX_OPT_CERTIFICATE_FILE, p1)])
      SHRPX_OPT_PRIVATE_KEY_FILE = p0
    rw [merge_config, apply_cfgs_last_set, last_set_append]
    have hC : last_set [(SHRPX_OPT_CERTIFICATE_FILE, p1)]
        SHRPX_OPT_PRIVATE_KEY_FILE = none := by
      show (if SHRPX_OPT_CERTIFICATE_FILE = SHRPX_OPT_PRIVATE_KEY_FILE
        then some p1 else none) = none
      rw [if_neg (by decide)]
    have hB : last_set [(SHRPX_OPT_PRIVATE_KEY_FILE, p0),
        (SHRPX_OPT_CERTIFICATE_FILE, p1)] SHRPX_OPT_PRIVATE_KEY_FILE = some p0 := by
      show (match last_set [(SHRPX_OPT_CERTIFICATE_FILE, p1)]
          SHRPX_OPT_PRIVATE_KEY_FILE with
        | some v => some v
        | none => if SHRPX_OPT_PRIVATE_KEY_FILE = SHRPX_OPT_PRIVATE_KEY_FILE
            then some p0 else none) = some p0
      rw [hC, if_pos rfl]
    rw [hB]
    rfl
  · show merge_config dflt file
      (flags ++ [(SHRPX_OPT_PRIVATE_KEY_FILE, p0), (SHRPX_OPT_CERTIFICATE_FILE, p1)])
      SHRPX_OPT_CERTIFICATE_FILE = p1
    rw [merge_config, apply_cfgs_last_set, last_set_append]
    have hC : last_set [(SHRPX_OPT_CERTIFICATE_FILE, p1)]
        SHRPX_OPT_CERTIFICATE_FILE = some p1 := by
      show (if SHRPX_OPT_CERTIFICATE_FILE = SHRPX_OPT_CERTIFICATE_FILE
        then some p1 else none) = some p1
      rw [if_pos rfl]
    have hB : last_set [(SHRPX_OPT_PRIVATE_KEY_FILE, p0),
        (SHRPX_OPT_CERTIFICATE_FILE, p1)] SHRPX_OPT_CERTIFICATE_FILE = some p1 := by
      show (match last_set [(SHRPX_OPT_CERTIFICATE_FILE, p1)]
          SHRPX_OPT_CERTIFICATE_FILE with
        | some v => some v
        | none => if SHRPX_OPT_PRIVATE_KEY_FILE = SHRPX_OPT_CERTIFICATE_FILE
            then some p0 else none) = some p1
      rw [hC]
    rw [hB]
    rfl

/-- C9: the shared rate-limit descriptor is built once from the four
configured integers in the order read rate, read burst, write rate, write
burst; each effective value is the unlimited sentinel exactly when the
configured value is 0 and the configured value itself for every positive
value. -/
theorem rate_limit_zero_sentinel (cfg : Config) :
    (build_rate_limit_cfg cfg =
       ev_token_bucket_cfg_new (get_rate_limit cfg.read_rate)
         (get_rate_limit cfg.read_burst) (get_rate_limit cfg.write_rate)
         (get_rate_limit cfg.write_burst)) ∧
    ((cfg.read_rate = 0 → (build_rate_limit_cfg cfg).read_rate = EV_RATE_LIMIT_MAX) ∧
     (0 < cfg.read_rate → (build_rate_limit_cfg cfg).read_rate = cfg.read_rate)) ∧
    ((cfg.read_burst = 0 → (build_rate_limit_cfg cfg).read_burst = EV_RATE_LIMIT_MAX) ∧
     (0 < cfg.read_burst → (build_rate_limit_cfg cfg).read_burst = cfg.read_burst)) ∧
    ((cfg.write_rate = 0 → (build_rate_limit_cfg cfg).write_rate = EV_RATE_LIMIT_MAX) ∧
     (0 < cfg.write_rate → (build_rate_limit_cfg cfg).write_rate = cfg.write_rate)) ∧
    ((cfg.write_burst = 0 → (build_rate_limit_cfg cfg).write_burst = EV_RATE_LIMIT_MAX) ∧
     (0 < cfg.write_burst → (build_rate_limit_cfg cfg).write_burst = cfg.write_burst)) := by
  refine ⟨rfl, ⟨?_, ?_⟩, ⟨?_, ?_⟩, ⟨?_, ?_⟩, ⟨?_, ?_⟩⟩ <;> intro h
  · simp [build_rate_limit_cfg, ev_token_bucket_cfg_new, get_rate_limit, h]
  · simp [build_rate_limit_cfg, ev_token_bucket_cfg_new, get_rate_limit, Nat.pos_iff_ne_zero.mp h]
  · simp [build_rate_limit_cfg, ev_token_bucket_cfg_new, get_rate_limit, h]
  · simp [build_rate_limit_cfg, ev_token_bucket_cfg_new, get_rate_limit, Nat.pos_iff_ne_zero.mp h]
  · simp [build_rate_limit_cfg, ev_token_bucket_cfg_new, get_rate_limit, h]
  · simp [build_rate_limit_cfg, ev_token_bucket_cfg_new, get_rate_limit, Nat.pos_iff_ne_zero.mp h]
  · simp [build_rate_limit_cfg, ev_token_bucket_cfg_new, get_rate_limit, h]
  · simp [build_rate_limit_cfg, ev_token_bucket_cfg_new, get_rate_limit, Nat.pos_iff_ne_zero.mp h]

/-- C7 (code-bug evidence): conf_exists tests `st_mode & (S_IFREG | S_IFLNK)`
for a nonzero result, which is also nonzero for a character device, a
block device and a socket, though its own comment and the spec say it
returns true only for a regular file or a symbolic link; a directory and a
FIFO are rejected, a regular file accepted, a failed stat rejected. -/
theorem conf_exists_accepts_character_device :
    conf_exists (some { st_mode := S_IFCHR }) = true ∧
    spec_regular_or_symlink { st_mode := S_IFCHR } = false ∧
    conf_exists (some { st_mode := 0o060000 }) = true ∧
    conf_exists (some { st_mode := 0o140000 }) = true ∧
    conf_exists (some { st_mode := S_IFREG }) = true ∧
    conf_exists (some { st_mode := S_IFLNK }) = true ∧
    conf_exists (some { st_mode := S_IFDIR }) = false ∧
    conf_exists (some { st_mode := 0o010000 }) = false ∧
    conf_exists none = false := by decide

/-- The bind loop selects exactly the first candidate satisfying the full
success predicate. -/
theorem try_candidates_find (fam : Nat) (l : List Candidate) :
    try_candidates fam l = l.find? (listen_pred fam) := by
  induction l with
  | nil => rfl
  | cons c rest ih =>
    unfold try_candidates
    by_cases hf : fam = AF_INET6
    · subst hf
      cases hs : c.socket_ok <;> cases hr : c.reuseaddr_ok <;>
        cases hv : c.v6only_ok <;> cases hb : c.bind_ok <;>
        simp [listen_pred, hs, hr, hv, hb, ih, List.find?]
    · cases hs : c.socket_ok <;> cases hr : c.reuseaddr_ok <;>
        cases hv : c.v6only_ok <;> cases hb : c.bind_ok <;>
        simp [listen_pred, hs, hr, hv, hb, hf, ih, List.find?]

/-- A candidate address that binds for the IPv6 family while getnameinfo
is failing: create_evlistener then aborts (DIE) although the family found
a bindable address. -/
def cexCand : Candidate :=
  { socket_ok := true, reuseaddr_ok := true, v6only_ok := true, bind_ok := true }

/-- A benign resolver oracle whose formatting succeeds. -/
def cexResolverFmtOk : ResolverSys :=
  { getaddrinfo := fun _ _ _ _ =>
      some ({ ai_family := 2, ai_addr := [127, 0, 0, 1], ai_addrlen := 4 }, [])
    getnameinfo_ok := fun _ => true }

/-- Oracle where the IPv6 frontend address resolves to one bindable
candidate but getnameinfo fails on the bound address. -/
def cexListenSys : Sys :=
  { getuid := 0, setgid_ok := fun _ => true, setuid_ok := fun _ => true
    setuid0_fails := true, daemon_ok := true, pid_initial := 100
    pid_after_daemon := 101, pid_write_ok := true
    gai_listen := fun fam => if fam = AF_INET6 then some [cexCand] else none
    listen_nameinfo_ok := fun _ => false
    resolver := cexResolverFmtOk, insert_ok := fun _ => true }

/-- C2 counterexample: the IPv6 family resolves and its first candidate
binds successfully (so it is not the case that both families yield no
listener), yet the listener phase exits fatally, because formatting the
bound address for the log line fails and create_evlistener DIEs, a fatal
path the claim's "if and only if" does not admit. -/
theorem listener_nameinfo_abort_counterexample :
    try_candidates AF_INET6 [cexCand] = some cexCand ∧
    cexListenSys.gai_listen AF_INET6 = some [cexCand] ∧
    create_evlistener cexListenSys AF_INET = Except.ok none ∧
    (listen_seg cexListenSys).1 = false ∧
    Ev.fatalEv ∈ (listen_seg cexListenSys).2 :=
  ⟨rfl, rfl, rfl, rfl, by decide⟩

/-- C2 amended: listener construction attempts IPv6 then IPv4, each
attempt independent; within a family the candidates are tried in order
and the first that fully succeeds (socket, reuse-addr, v6-only for the
IPv6 family, bind) is used; a family with a failed resolution or no
successful candidate yields no listener without aborting; among runs in
which no bound address fails log formatting, the phase is fatal exactly
when both families yield no listener; a bound address whose log
formatting fails additionally aborts fatally. -/
theorem dual_stack_listener_amended :
    (∀ (fam : Nat) (l : List Candidate),
       try_candidates fam l = l.find? (listen_pred fam)) ∧
    (∀ (sys : Sys) (fam : Nat), sys.gai_listen fam = none →
       create_evlistener sys fam = Except.ok none) ∧
    (∀ (sys : Sys) (fam : Nat) (cands : List Candidate),
       sys.gai_listen fam = some cands →
       cands.find? (listen_pred fam) = none →
       create_evlistener sys fam = Except.ok none) ∧
    (∀ (sys : Sys) (fam : Nat) (cands : List Candidate) (c : Candidate),
       sys.gai_listen fam = some cands →
       cands.find? (listen_pred fam) = some c →
       sys.listen_nameinfo_ok c = true →
       create_evlistener sys fam = Except.ok (some c)) ∧
    (∀ (sys : Sys) (fam : Nat) (cands : List Candidate) (c : Candidate),
       sys.gai_listen fam = some cands →
       cands.find? (listen_pred fam) = some c →
       sys.listen_nameinfo_ok c = false →
       create_evlistener sys fam = Except.error ()) ∧
    (∀ (sys : Sys) (l6 l4 : Option Candidate),
       create_evlistener sys AF_INET6 = Except.ok l6 →
       create_evlistener sys AF_INET = Except.ok l4 →
       build_listeners sys = Except.ok (l6, l4) ∧
       ((listen_seg sys).1 = false ↔ l6 = none ∧ l4 = none)) ∧
    (∀ (sys : Sys), (listen_seg sys).1 = false ↔
       (build_listeners sys = Except.error () ∨
        build_listeners sys = Except.ok (none, none))) ∧
    (∀ (sys : Sys), ∃ t, (listen_seg sys).2 = Ev.listenAttemptEv AF_INET6 :: t) ∧
    (∀ (sys : Sys) (r : Option Candidate),
       create_evlistener sys AF_INET6 = Except.ok r →
       ∃ t, (listen_seg sys).2 =
         Ev.listenAttemptEv AF_INET6 :: Ev.listenAttemptEv AF_INET :: t) := by
  refine ⟨try_candidates_find, ?_, ?_, ?_, ?_, ?_, ?_, ?_, ?_⟩
  · intro sys fam h
    unfold create_evlistener
    rw [h]
  · intro sys fam cands h hf
    have hred : create_evlistener sys fam =
        (match try_candidates fam cands with
         | none => Except.ok none
         | some c => if sys.listen_nameinfo_ok c then Except.ok (some c)
             else Except.error ()) := by
      unfold create_evlistener
      rw [h]
    rw [hred, try_candidates_find, hf]
  · intro sys fam cands c h hf hn
    have hred : create_evlistener sys fam =
        (match try_candidates fam cands with
         | none => Except.ok none
         | some c => if sys.listen_nameinfo_ok c then Except.ok (some c)
             else Except.error ()) := by
      unfold create_evlistener
      rw [h]
    rw [hred, try_candidates_find, hf]
    simp [hn]
  · intro sys fam cands c h hf hn
    have hred : create_evlistener sys fam =
        (match try_candidates fam cands with
         | none => Except.ok none
         | some c => if sys.listen_nameinfo_ok c then Except.ok (some c)
             else Except.error ()) := by
      unfold create_evlistener
      rw [h]
    rw [hred, try_candidates_find, hf]
    simp [hn]
  · intro sys l6 l4 h6 h4
    constructor
    · unfold build_listeners
      rw [h6, h4]
    · unfold listen_seg
      rw [h6, h4]
      cases l6 <;> cases l4 <;> simp
  · intro sys
    cases h6 : create_evlistener sys AF_INET6 with
    | error e =>
      cases e
      unfold listen_seg build_listeners
      rw [h6]
      simp
    | ok l6 =>
      cases h4 : create_evlistener sys AF_INET with
      | error e =>
        cases e
        unfold listen_seg build_listeners
        rw [h6, h4]
        simp
      | ok l4 =>
        unfold listen_seg build_listeners
        rw [h6, h4]
        cases l6 <;> cases l4 <;> simp
  · intro sys
    unfold listen_seg
    cases h6 : create_evlistener sys AF_INET6 with
    | error e => exact ⟨[Ev.fatalEv], rfl⟩
    | ok l6 =>
      cases h4 : create_evlistener sys AF_INET with
      | error e => exact ⟨[Ev.listenAttemptEv AF_INET, Ev.fatalEv], rfl⟩
      | ok l4 =>
        by_cases hn : (l6.isNone && l4.isNone) = true
        · exact ⟨[Ev.listenAttemptEv AF_INET, Ev.fatalEv], by simp [hn]⟩
        · exact ⟨[Ev.listenAttemptEv AF_INET], by simp [hn]⟩
  · intro sys r h6
    unfold listen_seg
    rw [h6]
    cases h4 : create_evlistener sys AF_INET with
    | error e => exact ⟨[Ev.fatalEv], rfl⟩
    | ok l4 =>
      by_cases hn : (r.isNone && l4.isNone) = true
      · exact ⟨[Ev.fatalEv], by simp [hn]⟩
      · exact ⟨[], by simp [hn]⟩

/-- The first getaddrinfo result the counterexample resolver returns. -/
def cexAddrPoint : AddrInfo :=
  { ai_family := 2, ai_addr := [127, 0, 0, 1], ai_addrlen := 4 }

/-- A resolver oracle whose name resolution succeeds while formatting the
result for the log line fails. -/
def cexResolverFmtFail : ResolverSys :=
  { getaddrinfo := fun _ _ _ _ => some (cexAddrPoint, [])
    getnameinfo_ok := fun _ => false }

/-- C6 counterexample: with identical successful name resolution, the
resolver succeeds when formatting succeeds and fails when formatting
fails, so the logging-only formatting step does affect whether the
resolver succeeds, contrary to the claim. -/
theorem resolver_nameinfo_failure_counterexample :
    (cexResolverFmtFail.getaddrinfo "127.0.0.1" 80 AF_UNSPEC SOCK_STREAM).isSome
      = true ∧
    resolve_hostname cexResolverFmtFail "127.0.0.1" 80 AF_UNSPEC = none ∧
    (cexResolverFmtOk.getaddrinfo "127.0.0.1" 80 AF_UNSPEC SOCK_STREAM).isSome
      = true ∧
    resolve_hostname cexResolverFmtOk "127.0.0.1" 80 AF_UNSPEC = some cexAddrPoint :=
  ⟨rfl, rfl, rfl, rfl⟩

/-- The mode assignments of main do not change the backend address
fields. -/
theorem set_mode_preserves (cfg : Config) :
    (set_proto (set_client_mode cfg)).downstream_host = cfg.downstream_host ∧
    (set_proto (set_client_mode cfg)).downstream_port = cfg.downstream_port ∧
    (set_proto (set_client_mode cfg)).backend_ipv4 = cfg.backend_ipv4 ∧
    (set_proto (set_client_mode cfg)).backend_ipv6 = cfg.backend_ipv6 := by
  unfold set_proto set_client_mode
  split_ifs <;> exact ⟨rfl, rfl, rfl, rfl⟩

/-- The mode assignments of main do not change the backend address
family. -/
theorem backend_family_set_mode (cfg : Config) :
    backend_family (set_proto (set_client_mode cfg)) = backend_family cfg := by
  obtain ⟨_, _, h4, h6⟩ := set_mode_preserves cfg
  unfold backend_family
  rw [h4, h6]

/-- C6 amended: the resolver queries name resolution restricted to stream
sockets and the requested family; it succeeds exactly when resolution
succeeds AND formatting the first result for the log line succeeds, and
then returns exactly the first result (a formatting failure, unlike the
claim's reading, is treated as a resolution failure); when it succeeds
the returned address is always the first result; a backend resolution
failure makes the bootstrap exit fatally. -/
theorem resolver_first_result_amended :
    (∀ (r : ResolverSys) (hn : String) (p f : Nat) (a : AddrInfo),
       resolve_hostname r hn p f = some a ↔
         ((∃ rest, r.getaddrinfo hn p f SOCK_STREAM = some (a, rest)) ∧
          r.getnameinfo_ok a = true)) ∧
    (∀ (r : ResolverSys) (hn : String) (p f : Nat),
       r.getaddrinfo hn p f SOCK_STREAM = none →
       resolve_hostname r hn p f = none) ∧
    (∀ (sys : Sys) (cfg : Config),
       resolve_hostname sys.resolver cfg.downstream_host cfg.downstream_port
         (backend_family cfg) = none →
       (main_model sys cfg).1 = false ∧ Ev.fatalEv ∈ (main_model sys cfg).2) := by
  refine ⟨?_, ?_, ?_⟩
  · intro r hn p f a
    unfold resolve_hostname
    cases hg : r.getaddrinfo hn p f SOCK_STREAM with
    | none => simp
    | some pr =>
      obtain ⟨first, rest0⟩ := pr
      by_cases hfmt : r.getnameinfo_ok first = true
      · simp only [hfmt, if_true]
        constructor
        · intro hsome
          have ha : first = a := by injection hsome
          subst ha
          exact ⟨⟨rest0, rfl⟩, hfmt⟩
        · rintro ⟨⟨rest, hr⟩, _⟩
          have : first = a ∧ rest0 = rest := by
            injection hr with hr2
            exact ⟨congrArg Prod.fst hr2, congrArg Prod.snd hr2⟩
          rw [this.1]
      · simp only [hfmt, if_false]
        constructor
        · intro hsome
          exact absurd hsome (by simp)
        · rintro ⟨⟨rest, hr⟩, hfa⟩
          have : first = a ∧ rest0 = rest := by
            injection hr with hr2
            exact ⟨congrArg Prod.fst hr2, congrArg Prod.snd hr2⟩
          rw [this.1] at hfmt
          exact absurd hfa hfmt
  · intro r hn p f h
    unfold resolve_hostname
    rw [h]
  · intro sys cfg hres
    unfold main_model
    cases htls : tls_setup sys cfg with
    | error e => exact ⟨rfl, by simp⟩
    | ok r =>
      by_cases hb : (cfg.backend_ipv4 && cfg.backend_ipv6) = true
      · simp [hb]
      · rw [if_neg hb]
        by_cases hm : 1 < mode_flag_sum cfg
        · simp [hm]
        · rw [if_neg hm]
          unfold main_after_checks
          have hres2 : resolve_hostname sys.resolver
              (set_proto (set_client_mode cfg)).downstream_host
              (set_proto (set_client_mode cfg)).downstream_port
              (backend_family (set_proto (set_client_mode cfg))) = none := by
            obtain ⟨h1, h2, _, _⟩ := set_mode_preserves cfg
            rw [h1, h2, backend_family_set_mode]
            exact hres
          by_cases hk : ((!(set_proto (set_client_mode cfg)).client_mode &&
              !(set_proto (set_client_mode cfg)).upstream_no_tls) &&
              ((set_proto (set_client_mode cfg)).private_key_file.isNone ||
               (set_proto (set_client_mode cfg)).cert_file.isNone)) = true
          · simp [hk]
          · rw [if_neg hk, hres2]
            exact ⟨rfl, by simp⟩

/-- C5: when more than one of the four mode flags is set after the merge,
the bootstrap exits fatally without performing any network action
(resolution, socket creation or binding attempt) or any privilege or
process-lifecycle action (daemonization, PID write, privilege
transition). -/
theorem mode_flags_rejected_before_network (sys : Sys) (cfg : Config)
    (h : 1 < mode_flag_sum cfg) :
    (main_model sys cfg).1 = false ∧
    Ev.fatalEv ∈ (main_model sys cfg).2 ∧
    ∀ e ∈ (main_model sys cfg).2, is_net_or_priv_ev e = false := by
  unfold main_model
  cases htls : tls_setup sys cfg with
  | error e =>
    refine ⟨rfl, by simp, ?_⟩
    intro e he
    simp at he
    rw [he]
    rfl
  | ok r =>
    by_cases hb : (cfg.backend_ipv4 && cfg.backend_ipv6) = true
    · rw [if_pos hb]
      refine ⟨rfl, by simp, ?_⟩
      intro e he
      simp at he
      rw [he]
      rfl
    · rw [if_neg hb, if_pos h]
      refine ⟨rfl, by simp, ?_⟩
      intro e he
      simp at he
      rw [he]
      rfl

/-- An oracle where every system call succeeds. -/
def sysBenign : Sys :=
  { getuid := 0, setgid_ok := fun _ => true, setuid_ok := fun _ => true
    setuid0_fails := true, daemon_ok := true, pid_initial := 100
    pid_after_daemon := 101, pid_write_ok := true
    gai_listen := fun _ => some [cexCand]
    listen_nameinfo_ok := fun _ => true
    resolver := cexResolverFmtOk, insert_ok := fun _ => true }

/-- A merged configuration with two of the four mode flags set. -/
def cfgModeClash : Config :=
  { fill_default_config with
    http2_proxy := true
    client := true }

/-- Witness for the mode-flag rejection at a concrete configuration with
both the secure-proxy and plain-client flags set. -/
theorem mode_flags_rejected_before_network_witness :
    (main_model sysBenign cfgModeClash).1 = false ∧
    Ev.fatalEv ∈ (main_model sysBenign cfgModeClash).2 ∧
    ∀ e ∈ (main_model sysBenign cfgModeClash).2, is_net_or_priv_ev e = false :=
  mode_flags_rejected_before_network sysBenign cfgModeClash (by decide)

/-- A successful subcert loop appends one entry per pair, in order, keyed
by the pair's certificate file, and every insertion succeeded. -/
theorem add_subcerts_ok_char (sys : Sys) :
    ∀ (l : List (String × String)) (t t2 : List (SSLCtx × String)),
      add_subcerts sys t l = Except.ok t2 →
      t2 = t ++ l.map (fun kc => (create_ssl_context kc.1 kc.2, kc.2)) ∧
      ∀ kc ∈ l, sys.insert_ok kc.2 = true := by
  intro l
  induction l with
  | nil =>
    intro t t2 h
    have h' : (Except.ok t : Except Unit (List (SSLCtx × String))) = Except.ok t2 := h
    injection h' with h''
    subst h''
    exact ⟨by simp, by intro kc hkc; simp at hkc⟩
  | cons kc rest ih =>
    intro t t2 h
    unfold add_subcerts cert_lookup_tree_add_cert_from_file at h
    by_cases hins : sys.insert_ok kc.2 = true
    · rw [if_pos hins] at h
      obtain ⟨h1, h2⟩ := ih _ _ h
      refine ⟨?_, ?_⟩
      · rw [h1]
        simp
      · intro kc2 hk
        rcases List.mem_cons.mp hk with rfl | hk
        · exact hins
        · exact h2 kc2 hk
    · rw [if_neg hins] at h
      have h' : (Except.error () : Except Unit (List (SSLCtx × String)))
          = Except.ok t2 := h
      cases h'

/-- Shape of a successful TLS setup: every subcert insertion succeeded,
the tree exists exactly when subcerts are configured and then holds one
entry per subcert pair followed by the primary pair's entry when one is
configured, and the default context exists exactly when the primary pair
is configured. -/
theorem tls_setup_ok_char (sys : Sys) (cfg : Config) (r : TLSResult)
    (h : tls_setup sys cfg = Except.ok r) :
    (∀ kc ∈ cfg.subcerts, sys.insert_ok kc.2 = true) ∧
    ((cfg.subcerts = [] ∧ r.cert_tree = none) ∨
     (cfg.subcerts ≠ [] ∧ r.cert_tree = some
        (cfg.subcerts.map (fun kc => (create_ssl_context kc.1 kc.2, kc.2)) ++
         (match cfg.private_key_file, cfg.cert_file with
          | some k, some c => [(create_ssl_context k c, c)]
          | _, _ => [])))) ∧
    r.default_ssl_ctx = (match cfg.private_key_file, cfg.cert_file with
      | some k, some c => some (create_ssl_context k c)
      | _, _ => none) := by
  unfold tls_setup at h
  cases hsub : cfg.subcerts with
  | nil =>
    rw [hsub] at h
    have h1 : (match cfg.private_key_file, cfg.cert_file with
      | some k, some c => (Except.ok (TLSResult.mk none (some (create_ssl_context k c))) :
          Except Unit TLSResult)
      | _, _ => (Except.ok (TLSResult.mk none none) :
          Except Unit TLSResult)) = Except.ok r := h
    cases hk : cfg.private_key_file with
    | none =>
      rw [hk] at h1
      have h2 : (Except.ok (TLSResult.mk none none) :
          Except Unit TLSResult) = Except.ok r := h1
      injection h2 with h3
      subst h3
      exact ⟨by intro kc hkc; simp at hkc, Or.inl ⟨rfl, rfl⟩, rfl⟩
    | some k =>
      rw [hk] at h1
      cases hc : cfg.cert_file with
      | none =>
        rw [hc] at h1
        have h2 : (Except.ok (TLSResult.mk none none) :
            Except Unit TLSResult) = Except.ok r := h1
        injection h2 with h3
        subst h3
        exact ⟨by intro kc hkc; simp at hkc, Or.inl ⟨rfl, rfl⟩, rfl⟩
      | some c =>
        rw [hc] at h1
        have h2 : (Except.ok (TLSResult.mk none (some (create_ssl_context k c))) :
            Except Unit TLSResult) = Except.ok r := h1
        injection h2 with h3
        subst h3
        exact ⟨by intro kc hkc; simp at hkc, Or.inl ⟨rfl, rfl⟩, rfl⟩
  | cons kc0 rest0 =>
    rw [hsub] at h
    have h1 : (match add_subcerts sys [] (kc0 :: rest0) with
      | Except.error e => (Except.error e : Except Unit TLSResult)
      | Except.ok t =>
        match cfg.private_key_file, cfg.cert_file with
        | some k, some c =>
          match cert_lookup_tree_add_cert_from_file sys.insert_ok t
              (create_ssl_context k c) c with
          | none => Except.error ()
          | some t2 => Except.ok (TLSResult.mk (some t2) (some (create_ssl_context k c)))
        | _, _ => Except.ok { cert_tree := some t, default_ssl_ctx := none })
      = Except.ok r := h
    cases hadd : add_subcerts sys [] (kc0 :: rest0) with
    | error e =>
      rw [hadd] at h1
      exact Except.noConfusion
        (show (Except.error e : Except Unit TLSResult) = Except.ok r from h1)
    | ok t =>
      rw [hadd] at h1
      obtain ⟨ht, hall⟩ := add_subcerts_ok_char sys (kc0 :: rest0) [] t hadd
      rw [List.nil_append] at ht
      have h2 : (match cfg.private_key_file, cfg.cert_file with
        | some k, some c =>
          match cert_lookup_tree_add_cert_from_file sys.insert_ok t
              (create_ssl_context k c) c with
          | none => (Except.error () : Except Unit TLSResult)
          | some t2 => Except.ok (TLSResult.mk (some t2) (some (create_ssl_context k c)))
        | _, _ => Except.ok (TLSResult.mk (some t) none))
        = Except.ok r := h1
      cases hk : cfg.private_key_file with
      | none =>
        rw [hk] at h2
        have h3 : (Except.ok (TLSResult.mk (some t) none) :
            Except Unit TLSResult) = Except.ok r := h2
        injection h3 with h4
        subst h4
        refine ⟨hall, Or.inr ⟨by simp, ?_⟩, rfl⟩
        rw [ht]
        simp
      | some k =>
        rw [hk] at h2
        cases hc : cfg.cert_file with
        | none =>
          rw [hc] at h2
          have h3 : (Except.ok (TLSResult.mk (some t) none) :
              Except Unit TLSResult) = Except.ok r := h2
          injection h3 with h4
          subst h4
          refine ⟨hall, Or.inr ⟨by simp, ?_⟩, rfl⟩
          rw [ht]
          simp
        | some c =>
          rw [hc] at h2
          have h3 : (match cert_lookup_tree_add_cert_from_file sys.insert_ok t
              (create_ssl_context k c) c with
            | none => (Except.error () : Except Unit TLSResult)
            | some t2 => Except.ok (TLSResult.mk (some t2) (some (create_ssl_context k c))))
            = Except.ok r := h2
          cases hins : cert_lookup_tree_add_cert_from_file sys.insert_ok t
              (create_ssl_context k c) c with
          | none =>
            rw [hins] at h3
            exact Except.noConfusion
              (show (Except.error () : Except Unit TLSResult) = Except.ok r from h3)
          | some t2 =>
            rw [hins] at h3
            have h4 : (Except.ok (TLSResult.mk (some t2) (some (create_ssl_context k c))) :
                Except Unit TLSResult) = Except.ok r := h3
            injection h4 with h5
            subst h5
            have ht2 : t2 = t ++ [(create_ssl_context k c, c)] := by
              unfold cert_lookup_tree_add_cert_from_file at hins
              by_cases hio : sys.insert_ok c = true
              · rw [if_pos hio] at hins
                injection hins with h6
                exact h6.symm
              · rw [if_neg hio] at hins
                cases hins
            refine ⟨hall, Or.inr ⟨by simp, ?_⟩, rfl⟩
            rw [ht2, ht]

/-- C8: the hostname-keyed lookup tree is constructed exactly when at
least one subcert pair is configured; one context is built per subcert
pair and inserted keyed by that pair's certificate file; when a primary
key/cert pair is configured its context is built and, when the tree
exists, inserted as well; a successful setup had every insertion succeed
(so any insertion failure is fatal), and a fatal TLS setup makes the
bootstrap exit with failure; with a primary pair and a tree, the tree
holds one entry per subcert pair plus the primary entry. -/
theorem tls_context_set_construction (sys : Sys) (cfg : Config) :
    (∀ r, tls_setup sys cfg = Except.ok r →
       (r.cert_tree.isSome ↔ cfg.subcerts ≠ [])) ∧
    (∀ r t, tls_setup sys cfg = Except.ok r → r.cert_tree = some t →
       t = cfg.subcerts.map (fun kc => (create_ssl_context kc.1 kc.2, kc.2)) ++
         (match cfg.private_key_file, cfg.cert_file with
          | some k, some c => [(create_ssl_context k c, c)]
          | _, _ => [])) ∧
    (∀ r, tls_setup sys cfg = Except.ok r →
       (r.default_ssl_ctx.isSome ↔
         (cfg.private_key_file.isSome ∧ cfg.cert_file.isSome))) ∧
    (∀ r, tls_setup sys cfg = Except.ok r →
       ∀ kc ∈ cfg.subcerts, sys.insert_ok kc.2 = true) ∧
    (∀ r t k c, tls_setup sys cfg = Except.ok r → r.cert_tree = some t →
       cfg.private_key_file = some k → cfg.cert_file = some c →
       r.default_ssl_ctx = some (create_ssl_context k c) ∧
       (create_ssl_context k c, c) ∈ t ∧
       t.length = cfg.subcerts.length + 1) ∧
    (tls_setup sys cfg = Except.error () → (main_model sys cfg).1 = false) := by
  refine ⟨?_, ?_, ?_, ?_, ?_, ?_⟩
  · intro r h
    obtain ⟨_, hd, _⟩ := tls_setup_ok_char sys cfg r h
    rcases hd with ⟨hs, hn⟩ | ⟨hs, hteq⟩
    · rw [hn, hs]
      simp
    · rw [hteq]
      simp [hs]
  · intro r t h htt
    obtain ⟨_, hd, _⟩ := tls_setup_ok_char sys cfg r h
    rcases hd with ⟨hs, hn⟩ | ⟨hs, hteq⟩
    · rw [hn] at htt
      cases htt
    · rw [hteq] at htt
      injection htt with h2
      exact h2.symm
  · intro r h
    obtain ⟨_, _, hdef⟩ := tls_setup_ok_char sys cfg r h
    rw [hdef]
    cases hk : cfg.private_key_file <;> cases hc : cfg.cert_file <;> simp
  · intro r h
    exact (tls_setup_ok_char sys cfg r h).1
  · intro r t k c h htt hk hc
    obtain ⟨_, hd, hdef⟩ := tls_setup_ok_char sys cfg r h
    rcases hd with ⟨hs, hn⟩ | ⟨hs, hteq⟩
    · rw [hn] at htt
      cases htt
    · rw [hk, hc] at hteq
      rw [hteq] at htt
      injection htt with h2
      refine ⟨by rw [hdef, hk, hc], ?_, ?_⟩
      · rw [← h2]
        exact List.mem_append.mpr (Or.inr (List.mem_cons_self _ _))
      · rw [← h2]
        simp
  · intro h
    unfold main_model
    rw [h]

/-- A root configuration asking for daemonization, a pid file, a drop to
uid 1000 / gid 500, and two workers. -/
def cfgFull : Config :=
  { fill_default_config with
    uid := 1000
    gid := 500
    daemon := true
    pid_file := some "/var/run/nghttpx.pid"
    num_worker := 2 }

/-- Sanity check: with every system call succeeding, event_loop runs
daemonize, PID write (pid captured after the fork, newline-terminated),
both listener attempts, setgid-setuid-setuid(0), then worker creation,
in that order, and succeeds. -/
theorem event_loop_full_run :
    event_loop sysBenign cfgFull =
      (true, [Ev.daemonEv, Ev.pidWriteEv "101\n",
        Ev.listenAttemptEv AF_INET6, Ev.listenAttemptEv AF_INET,
        Ev.setgidEv 500, Ev.setuidEv 1000, Ev.setuid0Ev, Ev.workerEv 2]) := by
  decide

/-- The plain-client configuration of end-to-end scenario 1. -/
def cfgClient : Config := { fill_default_config with client := true }

/-- Sanity check: a plain-client bootstrap with no TLS material resolves
the default backend, builds both listeners, performs no privilege
transition (uid 0 is not a drop target), and creates the shared HTTP/2
downstream session. -/
theorem main_model_client_run :
    main_model sysBenign cfgClient =
      (true, [Ev.resolveEv "127.0.0.1" 80 AF_UNSPEC,
        Ev.listenAttemptEv AF_INET6, Ev.listenAttemptEv AF_INET,
        Ev.http2SessionEv]) := by
  decide

/-- The rate-limit configuration of end-to-end scenario 3. -/
def cfgRates : Config :=
  { fill_default_config with
    read_rate := 0
    read_burst := 0
    write_rate := 1000
    write_burst := 2000 }

/-- Sanity check: zero read limits become the unlimited sentinel while the
positive write limits pass through unchanged. -/
theorem build_rate_limit_cfg_scenario :
    build_rate_limit_cfg cfgRates =
      ev_token_bucket_cfg_new EV_RATE_LIMIT_MAX EV_RATE_LIMIT_MAX 1000 2000 := by
  decide

/-- The TLS configuration of end-to-end scenario 4: two subcert pairs and
a primary key/cert pair. -/
def cfgSubcerts : Config :=
  { fill_default_config with
    subcerts := [("k1.pem", "c1.pem"), ("k2.pem", "c2.pem")]
    private_key_file := some "k0.pem"
    cert_file := some "c0.pem" }

/-- Sanity check: two subcert pairs plus a primary pair produce a lookup
tree with three entries, each context keyed by its own certificate file,
the primary context last and also the default context. -/
theorem tls_setup_scenario :
    tls_setup sysBenign cfgSubcerts =
      Except.ok
        { cert_tree := some
            [(create_ssl_context "k1.pem" "c1.pem", "c1.pem"),
             (create_ssl_context "k2.pem" "c2.pem", "c2.pem"),
             (create_ssl_context "k0.pem" "c0.pem", "c0.pem")],
          default_ssl_ctx := some (create_ssl_context "k0.pem" "c0.pem") } := rfl
